import Mathlib

/-!
Verification of the Career Path Explorer backend and frontend logic.

The definitions below are a shallow embedding of the repository's code:
  * the database layer (`src/backend/src/db`): the `roles` and `resources`
    tables and the query functions `getAllRoles`, `getRoleById`, `createRole`,
    `roleExists`, `createResource`;
  * the zod validation schemas (`CreateRoleSchema`, `CreateResourceSchema`,
    `RoleIdParamSchema`, `ResourceTypeSchema`, `DifficultyLevelSchema`);
  * the Express route handlers (`GET /api/roles`, `GET /api/roles/:id`,
    `POST /api/roles`, `POST /api/resources`);
  * the frontend `ResourceList` difficulty filter.

The database is modelled as an explicit state (lists of rows plus the next
SERIAL values); each handler is a pure function from request data and state
to a response and a new state.  A database failure (a rejected query) is
modelled, where a claim mentions it, as an explicitly injected error value.
-/

namespace CareerPath

/-- A JSON-like value, as delivered by Express's JSON body parser.  Numbers
are modelled as integers (the validation schemas only ever accept integer
ids, so fractional values would be rejected at the `int()` check, which we
fold into the model). -/
inductive Json where
  | null
  | str (s : String)
  | num (n : Int)
  | bool (b : Bool)
  | arr (xs : List Json)

/-- The `resource_type` enumeration (schema `CHECK` constraint and
`ResourceTypeSchema`): Video, Article, Course. -/
inductive ResourceType where
  | video
  | article
  | course
  deriving DecidableEq, Repr

/-- The `difficulty` enumeration (schema `CHECK` constraint and
`DifficultyLevelSchema`): Beginner, Intermediate, Advanced. -/
inductive DifficultyLevel where
  | beginner
  | intermediate
  | advanced
  deriving DecidableEq, Repr

/-- A row of the `roles` table.  `long_description` is nullable; the array
columns are stored as lists. -/
structure Role where
  id : Nat
  name : String
  short_description : String
  long_description : Option String
  responsibilities : List String
  skills : List String
  deriving DecidableEq, Repr

/-- The summary shape returned by `getAllRoles`
(`SELECT id, name, short_description FROM roles ORDER BY id`). -/
structure RoleSummary where
  id : Nat
  name : String
  short_description : String
  deriving DecidableEq, Repr

/-- A row of the `resources` table. -/
structure Resource where
  id : Nat
  role_id : Nat
  title : String
  url : String
  resource_type : ResourceType
  difficulty : DifficultyLevel
  deriving DecidableEq, Repr

/-- The result shape of `getRoleById`: the role's columns together with all
resources of that role (`RoleWithResources` in `db/queries.ts`). -/
structure RoleWithResources where
  role : Role
  resources : List Resource
  deriving DecidableEq, Repr

/-- The parsed output of `CreateRoleSchema` (`CreateRoleRequest` in
`db/queries.ts`).  zod's `.optional().nullable()` lets a field be absent,
`null`, or present; downstream code only applies JavaScript `||` to the
value, under which absent and `null` behave identically, so both collapse
to `none`. -/
structure CreateRoleRequest where
  name : String
  short_description : String
  long_description : Option String
  responsibilities : Option (List String)
  skills : Option (List String)
  deriving DecidableEq, Repr

/-- The parsed output of `CreateResourceSchema` (`CreateResourceRequest`).
`role_id` is a positive integer, kept here as `Nat`. -/
structure CreateResourceRequest where
  role_id : Nat
  title : String
  url : String
  resource_type : ResourceType
  difficulty : DifficultyLevel
  deriving DecidableEq, Repr

/-- The database state: the two tables plus the next values of their
`SERIAL` primary-key sequences. -/
structure DB where
  roles : List Role
  resources : List Resource
  nextRoleId : Nat
  nextResourceId : Nat
  deriving DecidableEq, Repr

/-- The freshly migrated database: both tables empty, SERIAL sequences at 1. -/
def initDB : DB := ⟨[], [], 1, 1⟩

/-- JavaScript `x || null` applied to a string-or-nullish value
(`data.long_description || null` in `createRole`): the empty string is
falsy in JavaScript, so it is replaced by `null` just like an absent or
`null` value. -/
def stringOrNull (x : Option String) : Option String :=
  match x with
  | some s => if s = "" then none else some s
  | none => none

/-- The `roles` ordering relation used by `ORDER BY id`. -/
def roleIdLE (a b : Role) : Prop := a.id ≤ b.id

instance : DecidableRel roleIdLE := fun a b => Nat.decLe a.id b.id

instance : IsTotal Role roleIdLE := ⟨fun a b => Nat.le_total a.id b.id⟩

instance : IsTrans Role roleIdLE := ⟨fun _ _ _ => Nat.le_trans⟩

/-- The `resources` ordering relation used by `ORDER BY id`. -/
def resourceIdLE (a b : Resource) : Prop := a.id ≤ b.id

instance : DecidableRel resourceIdLE := fun a b => Nat.decLe a.id b.id

instance : IsTotal Resource resourceIdLE := ⟨fun a b => Nat.le_total a.id b.id⟩

instance : IsTrans Resource resourceIdLE := ⟨fun _ _ _ => Nat.le_trans⟩

/-- The query `SELECT id, name, short_description FROM roles ORDER BY id`
(`getAllRoles` in `db/queries.ts`). -/
def getAllRoles (db : DB) : List RoleSummary :=
  (db.roles.insertionSort roleIdLE).map fun r => ⟨r.id, r.name, r.short_description⟩

/-- Whether `SELECT 1 FROM roles WHERE id = $1` has a row (`roleExists`). -/
def roleExists (db : DB) (id : Nat) : Bool :=
  db.roles.any fun r => r.id == id

/-- Function `getRoleById` in `db/queries.ts`: fetch the role row by id, return
`null` when absent, otherwise attach all resources with that `role_id`,
ordered by id. -/
def getRoleById (db : DB) (id : Nat) : Option RoleWithResources :=
  match db.roles.find? (fun r => r.id == id) with
  | none => none
  | some r =>
      some ⟨r, (db.resources.filter fun x => x.role_id == id).insertionSort resourceIdLE⟩

/-- Function `createRole` in `db/queries.ts`: `INSERT INTO roles ... RETURNING ...`
with the JavaScript defaults `data.long_description || null`,
`data.responsibilities || []`, `data.skills || []`.  Returns the created
row and the new state. -/
def createRole (db : DB) (data : CreateRoleRequest) : Role × DB :=
  let r : Role :=
    { id := db.nextRoleId
      name := data.name
      short_description := data.short_description
      long_description := stringOrNull data.long_description
      responsibilities := data.responsibilities.getD []
      skills := data.skills.getD [] }
  (r, { db with roles := db.roles ++ [r], nextRoleId := db.nextRoleId + 1 })

/-- Function `createResource` in `db/queries.ts`: `INSERT INTO resources ...
RETURNING ...`.  Returns the created row and the new state. -/
def createResource (db : DB) (data : CreateResourceRequest) : Resource × DB :=
  let r : Resource :=
    { id := db.nextResourceId
      role_id := data.role_id
      title := data.title
      url := data.url
      resource_type := data.resource_type
      difficulty := data.difficulty }
  (r, { db with resources := db.resources ++ [r], nextResourceId := db.nextResourceId + 1 })

/-- Modelled from the spec: SQL `DELETE FROM roles WHERE id = $1` executed
against the schema of `CREATE_RESOURCES_TABLE`, whose foreign key is
declared `role_id INTEGER NOT NULL REFERENCES roles(id) ON DELETE
RESTRICT`.  No such statement is issued anywhere in the application code;
this models what the database would do if one were attempted: the delete
fails (`none`, both tables unchanged) whenever a resource still references
the role, and otherwise removes the role row. -/
def dbDeleteRole (db : DB) (id : Nat) : Option DB :=
  if db.resources.any (fun r => r.role_id == id) then
    none
  else
    some { db with roles := db.roles.filter fun r => !(r.id == id) }

/-! ### Validation schemas (`src/backend/src/validation/schemas.ts`) -/

/-- Schema `ResourceTypeSchema`, the zod enum of Video, Article, Course, as a
partial map from strings: parsing succeeds exactly on the three literals. -/
def parseResourceType (s : String) : Option ResourceType :=
  if s = "Video" then some .video
  else if s = "Article" then some .article
  else if s = "Course" then some .course
  else none

/-- Schema `DifficultyLevelSchema`, the zod enum of Beginner, Intermediate,
Advanced, as a partial map from strings. -/
def parseDifficulty (s : String) : Option DifficultyLevel :=
  if s = "Beginner" then some .beginner
  else if s = "Intermediate" then some .intermediate
  else if s = "Advanced" then some .advanced
  else none

/-- JavaScript `val.trim().length > 0`: the string still has a character
after stripping whitespace from both ends, i.e. some character is not
whitespace. -/
def trimNonempty (s : String) : Bool :=
  s.data.any fun c => !c.isWhitespace

/-- Modelled from the spec: zod's `z.string().url()` check (the zod library
itself is not part of this repository).  zod accepts a string exactly when
JavaScript's `new URL(s)` succeeds; we model the web URLs the application
exchanges as strings with an http or https scheme followed by a nonempty
remainder.  No claim depends on the exact boundary of this predicate. -/
def isValidUrl (s : String) : Bool :=
  ("http://".data.isPrefixOf s.data && s.length > 7) ||
  ("https://".data.isPrefixOf s.data && s.length > 8)

/-- A JSON request body for `POST /api/roles`: each recognised field is
either absent (`none`) or bound to a JSON value.  Unknown extra fields are
stripped by zod and are not modelled. -/
structure RoleBody where
  name : Option Json
  short_description : Option Json
  long_description : Option Json
  responsibilities : Option Json
  skills : Option Json

/-- A JSON request body for `POST /api/resources`. -/
structure ResourceBody where
  role_id : Option Json
  title : Option Json
  url : Option Json
  resource_type : Option Json
  difficulty : Option Json

/-- The `name` field of `CreateRoleSchema`:
`z.string().min(1).max(255).refine(trim nonempty)`. -/
def parseRoleName (x : Option Json) : Option String :=
  match x with
  | some (.str s) =>
      if 1 ≤ s.length ∧ s.length ≤ 255 ∧ trimNonempty s then some s else none
  | _ => none

/-- The `short_description` field of `CreateRoleSchema`:
`z.string().min(1).refine(trim nonempty)`. -/
def parseShortDescription (x : Option Json) : Option String :=
  match x with
  | some (.str s) => if 1 ≤ s.length ∧ trimNonempty s then some s else none
  | _ => none

/-- A `z.string().optional().nullable()` field: absent and `null` parse to
`none`, a string parses to itself, anything else is rejected. -/
def parseOptString (x : Option Json) : Option (Option String) :=
  match x with
  | none => some none
  | some .null => some none
  | some (.str s) => some (some s)
  | _ => none

/-- An array whose elements must all be strings (`z.array(z.string())`). -/
def parseStringList (xs : List Json) : Option (List String) :=
  match xs with
  | [] => some []
  | .str s :: rest => (parseStringList rest).map fun l => s :: l
  | _ => none

/-- A `z.array(z.string()).optional().nullable()` field. -/
def parseOptStringList (x : Option Json) : Option (Option (List String)) :=
  match x with
  | none => some none
  | some .null => some none
  | some (.arr xs) => (parseStringList xs).map some
  | _ => none

/-- Validation `CreateRoleSchema.safeParse`: `some` is a successful parse carrying the
validated data, `none` a validation failure. -/
def parseCreateRole (b : RoleBody) : Option CreateRoleRequest := do
  let name ← parseRoleName b.name
  let sd ← parseShortDescription b.short_description
  let ld ← parseOptString b.long_description
  let resp ← parseOptStringList b.responsibilities
  let sk ← parseOptStringList b.skills
  pure ⟨name, sd, ld, resp, sk⟩

/-- The `role_id` field of `CreateResourceSchema`:
`z.number().int().positive()`. -/
def parseRoleIdField (x : Option Json) : Option Nat :=
  match x with
  | some (.num n) => if 0 < n then some n.toNat else none
  | _ => none

/-- The `title` field of `CreateResourceSchema`:
`z.string().min(1).max(255).refine(trim nonempty)`. -/
def parseTitle (x : Option Json) : Option String :=
  match x with
  | some (.str s) =>
      if 1 ≤ s.length ∧ s.length ≤ 255 ∧ trimNonempty s then some s else none
  | _ => none

/-- The `url` field of `CreateResourceSchema`: `z.string().url()`. -/
def parseUrlField (x : Option Json) : Option String :=
  match x with
  | some (.str s) => if isValidUrl s then some s else none
  | _ => none

/-- The `resource_type` field: a string accepted by `ResourceTypeSchema`. -/
def parseResourceTypeField (x : Option Json) : Option ResourceType :=
  match x with
  | some (.str s) => parseResourceType s
  | _ => none

/-- The `difficulty` field: a string accepted by `DifficultyLevelSchema`. -/
def parseDifficultyField (x : Option Json) : Option DifficultyLevel :=
  match x with
  | some (.str s) => parseDifficulty s
  | _ => none

/-- Validation `CreateResourceSchema.safeParse`. -/
def parseCreateResource (b : ResourceBody) : Option CreateResourceRequest := do
  let rid ← parseRoleIdField b.role_id
  let title ← parseTitle b.title
  let url ← parseUrlField b.url
  let rt ← parseResourceTypeField b.resource_type
  let d ← parseDifficultyField b.difficulty
  pure ⟨rid, title, url, rt, d⟩

/-- Schema `RoleIdParamSchema`: the `:id` path parameter (a string in Express) must
match `^\d+$` and is then converted to a number.  A nonempty all-digit
string parses to its decimal value; anything else is rejected. -/
def parseRoleIdParam (s : String) : Option Nat :=
  if s ≠ "" ∧ s.data.all Char.isDigit then
    some (s.data.foldl (fun n c => 10 * n + (c.toNat - 48)) 0)
  else none

/-! ### Route handlers -/

/-- A response body: either an error object (which always carries an
`error` field and a `details` field) or one of the success payloads. -/
inductive ResBody where
  | err (error : String) (details : String)
  | roles (rs : List RoleSummary)
  | role (r : RoleWithResources)
  | roleCreated (r : Role)
  | resourceCreated (r : Resource)
  deriving DecidableEq, Repr

/-- An HTTP response: status code and JSON body. -/
structure Response where
  status : Nat
  body : ResBody
  deriving DecidableEq, Repr

/-- Whether the JSON body is an error object carrying an `error` field. -/
def ResBody.hasErrorField : ResBody → Bool
  | .err _ _ => true
  | _ => false

/-- Handler for `GET /api/roles`: returns every role summary with status 200, or 500 if
the query is rejected (`dbFailure` injects the rejection's message). -/
def getRolesRoute (db : DB) (dbFailure : Option String) : Response :=
  match dbFailure with
  | some e => ⟨500, .err "Failed to fetch roles" e⟩
  | none => ⟨200, .roles (getAllRoles db)⟩

/-- Handler for `GET /api/roles/:id`: validate the id parameter (400 on failure), then
query (500 on a rejected query, 404 when the role is absent, 200 with the
role and its resources otherwise). -/
def getRoleRoute (idParam : String) (db : DB) (dbFailure : Option String) : Response :=
  match parseRoleIdParam idParam with
  | none => ⟨400, .err "Invalid ID format" "ID must be a valid number"⟩
  | some id =>
      match dbFailure with
      | some e => ⟨500, .err "Failed to fetch role" e⟩
      | none =>
          match getRoleById db id with
          | none => ⟨404, .err "Role not found" "No role found with that ID"⟩
          | some r => ⟨200, .role r⟩

/-- Handler for `POST /api/roles`: validate the body (400 on failure, no insert), then
insert and answer 201 with the created role. -/
def postRoleRoute (b : RoleBody) (db : DB) : Response × DB :=
  match parseCreateRole b with
  | none => (⟨400, .err "Validation failed" "body rejected by CreateRoleSchema"⟩, db)
  | some d =>
      let (r, db') := createRole db d
      (⟨201, .roleCreated r⟩, db')

/-- Handler for `POST /api/resources`: validate the body (400 on failure, no insert),
check the role exists (404 on failure, no insert), then insert and answer
201 with the created resource. -/
def postResourceRoute (b : ResourceBody) (db : DB) : Response × DB :=
  match parseCreateResource b with
  | none => (⟨400, .err "Validation failed" "body rejected by CreateResourceSchema"⟩, db)
  | some d =>
      if roleExists db d.role_id then
        let (r, db') := createResource db d
        (⟨201, .resourceCreated r⟩, db')
      else
        (⟨404, .err "Role not found" "No role found with that ID"⟩, db)

/-! ### The API as a state machine -/

/-- One API request.  The two GET endpoints only run `SELECT` queries, the
two POST endpoints are the only operations that write. -/
inductive Action where
  | postRole (b : RoleBody)
  | postResource (b : ResourceBody)
  | getRoles
  | getRole (idParam : String)

/-- The state transition of one request: the database state after the
handler runs (the GET handlers only read). -/
def stepDB (db : DB) (a : Action) : DB :=
  match a with
  | .postRole b => (postRoleRoute b db).2
  | .postResource b => (postResourceRoute b db).2
  | .getRoles => db
  | .getRole _ => db

/-- The database state after a sequence of API requests, starting from the
freshly migrated database. -/
def runAPI (acts : List Action) : DB :=
  acts.foldl stepDB initDB

/-! ### Frontend: the `ResourceList` difficulty filter -/

/-- The filter dropdown's options: `'All' | DifficultyLevel`. -/
inductive FilterOption where
  | all
  | level (d : DifficultyLevel)
  deriving DecidableEq, Repr

/-- Derived value `filteredResources` in `ResourceList`: all resources when `'All'` is
selected, otherwise those whose difficulty equals the selection. -/
def filteredResources (sel : FilterOption) (resources : List Resource) : List Resource :=
  match sel with
  | .all => resources
  | .level d => resources.filter fun r => r.difficulty == d

/-- Whether `ResourceList` renders the no-resources message: exactly when
the filtered list is empty (`filteredResources.length === 0`). -/
def showsNoResourcesMessage (sel : FilterOption) (resources : List Resource) : Bool :=
  (filteredResources sel resources).isEmpty

/-! ### Well-formedness and concrete sample data -/

/-- A well-formed database state: every stored role id is below the SERIAL
sequence value, and every resource references an existing role.  This holds
of the freshly migrated database and is preserved by every API request. -/
def WF (db : DB) : Prop :=
  (∀ r ∈ db.roles, r.id < db.nextRoleId) ∧
  (∀ x ∈ db.resources, ∃ r ∈ db.roles, r.id = x.role_id)

/-- A valid `POST /api/roles` body with every field present. -/
def fullRoleBody : RoleBody :=
  ⟨some (.str "Software Engineer"), some (.str "Builds software"),
   some (.str "Designs and ships software systems"),
   some (.arr [.str "Design", .str "Code"]), some (.arr [.str "TypeScript"])⟩

/-- A valid `POST /api/roles` body with the optional fields omitted. -/
def minimalRoleBody : RoleBody :=
  ⟨some (.str "Data Analyst"), some (.str "Analyzes data"), none, none, none⟩

/-- A valid `POST /api/roles` body with the optional fields set to `null`. -/
def nullFieldsRoleBody : RoleBody :=
  ⟨some (.str "QA Engineer"), some (.str "Tests software"), some .null,
   some .null, some .null⟩

/-- A `POST /api/resources` body whose `resource_type` is not one of the
three enumeration values. -/
def badEnumResourceBody : ResourceBody :=
  ⟨some (.num 1), some (.str "Intro Course"),
   some (.str "https://example.com/intro"), some (.str "Podcast"),
   some (.str "Beginner")⟩

/-- A valid `POST /api/resources` body referencing role id 5. -/
def role5ResourceBody : ResourceBody :=
  ⟨some (.num 5), some (.str "Advanced SQL"),
   some (.str "https://example.com/sql"), some (.str "Course"),
   some (.str "Advanced")⟩

/-- A sample stored role with id 1. -/
def sampleRole : Role :=
  ⟨1, "Software Engineer", "Builds software", none, [], []⟩

/-- A sample stored resource with id 1 referencing role 1. -/
def sampleResource : Resource :=
  ⟨1, 1, "Intro", "https://example.com/intro", .video, .beginner⟩

/-- A sample database state holding one role and one resource. -/
def sampleDB : DB := ⟨[sampleRole], [sampleResource], 2, 2⟩

/-- A valid role-creation request whose `long_description` is the empty
string. -/
def emptyLongDescRequest : CreateRoleRequest :=
  ⟨"Backend Developer", "Serves APIs", some "", some ["Ship features"], some ["SQL"]⟩

/-- The parse result of `nullFieldsRoleBody`: the optional fields collapse
to `none`. -/
def qaRequest : CreateRoleRequest :=
  ⟨"QA Engineer", "Tests software", none, none, none⟩

/-! ### Helper lemmas -/

/-- Every API step appends some (possibly empty) suffix to the roles table:
no role row is ever removed or changed. -/
theorem step_roles_append (db : DB) (a : Action) :
    ∃ t, (stepDB db a).roles = db.roles ++ t := by
  cases a with
  | getRoles => exact ⟨[], by simp [stepDB]⟩
  | getRole s => exact ⟨[], by simp [stepDB]⟩
  | postResource b =>
      refine ⟨[], ?_⟩
      unfold stepDB postResourceRoute
      cases hp : parseCreateResource b with
      | none => simp [hp]
      | some d =>
          by_cases hr : roleExists db d.role_id <;> simp [hp, hr, createResource]
  | postRole b =>
      unfold stepDB postRoleRoute
      cases hp : parseCreateRole b with
      | none => exact ⟨[], by simp [hp]⟩
      | some d => exact ⟨[(createRole db d).1], by simp [hp, createRole]⟩

/-- Every API step appends some (possibly empty) suffix to the resources
table. -/
theorem step_resources_append (db : DB) (a : Action) :
    ∃ t, (stepDB db a).resources = db.resources ++ t := by
  cases a with
  | getRoles => exact ⟨[], by simp [stepDB]⟩
  | getRole s => exact ⟨[], by simp [stepDB]⟩
  | postRole b =>
      refine ⟨[], ?_⟩
      unfold stepDB postRoleRoute
      cases hp : parseCreateRole b with
      | none => simp [hp]
      | some d => simp [hp, createRole]
  | postResource b =>
      unfold stepDB postResourceRoute
      cases hp : parseCreateResource b with
      | none => exact ⟨[], by simp [hp]⟩
      | some d =>
          by_cases hr : roleExists db d.role_id
          · exact ⟨[(createResource db d).1], by simp [hp, hr, createResource]⟩
          · exact ⟨[], by simp [hp, hr]⟩

/-- Over any request sequence both tables only grow by a suffix. -/
theorem foldl_tables_append (acts : List Action) (db : DB) :
    (∃ t, (List.foldl stepDB db acts).roles = db.roles ++ t) ∧
    (∃ t, (List.foldl stepDB db acts).resources = db.resources ++ t) := by
  induction acts generalizing db with
  | nil => exact ⟨⟨[], by simp⟩, ⟨[], by simp⟩⟩
  | cons a as ih =>
      obtain ⟨⟨t1, h1⟩, ⟨t2, h2⟩⟩ := ih (stepDB db a)
      obtain ⟨s1, hs1⟩ := step_roles_append db a
      obtain ⟨s2, hs2⟩ := step_resources_append db a
      refine ⟨⟨s1 ++ t1, ?_⟩, ⟨s2 ++ t2, ?_⟩⟩
      · simp [List.foldl_cons, h1, hs1]
      · simp [List.foldl_cons, h2, hs2]

/-- One API step preserves the referential-integrity invariant. -/
theorem step_preserves_refint (db : DB) (a : Action)
    (h : ∀ x ∈ db.resources, ∃ r ∈ db.roles, r.id = x.role_id) :
    ∀ x ∈ (stepDB db a).resources, ∃ r ∈ (stepDB db a).roles, r.id = x.role_id := by
  cases a with
  | getRoles => exact h
  | getRole s => exact h
  | postRole b =>
      unfold stepDB postRoleRoute
      cases hp : parseCreateRole b with
      | none => simpa [hp] using h
      | some d =>
          intro x hx
          simp only [hp, createRole, List.mem_append] at hx ⊢
          obtain ⟨r, hr, he⟩ := h x hx
          exact ⟨r, Or.inl hr, he⟩
  | postResource b =>
      unfold stepDB postResourceRoute
      cases hp : parseCreateResource b with
      | none => simpa [hp] using h
      | some d =>
          by_cases hr : roleExists db d.role_id
          · intro x hx
            simp only [hp, hr, if_true, createResource, List.mem_append] at hx ⊢
            rcases hx with hx | hx
            · exact h x hx
            · obtain ⟨r, hmem, hid⟩ := List.any_eq_true.mp hr
              simp only [List.mem_singleton] at hx
              subst hx
              exact ⟨r, hmem, by simpa using hid⟩
          · simpa [hp, hr] using h

/-- The referential-integrity invariant holds after any request sequence
from any state satisfying it. -/
theorem foldl_preserves_refint (acts : List Action) (db : DB)
    (h : ∀ x ∈ db.resources, ∃ r ∈ db.roles, r.id = x.role_id) :
    ∀ x ∈ (List.foldl stepDB db acts).resources,
      ∃ r ∈ (List.foldl stepDB db acts).roles, r.id = x.role_id := by
  induction acts generalizing db with
  | nil => exact h
  | cons a as ih => exact ih (stepDB db a) (step_preserves_refint db a h)

/-- If the `resource_type` or `difficulty` field fails its enum schema, the
whole body fails `CreateResourceSchema`. -/
theorem parseCreateResource_eq_none_of_bad_enum (b : ResourceBody)
    (h : parseResourceTypeField b.resource_type = none ∨
         parseDifficultyField b.difficulty = none) :
    parseCreateResource b = none := by
  unfold parseCreateResource
  rcases h with h | h <;>
    cases hA : parseRoleIdField b.role_id <;>
    cases hB : parseTitle b.title <;>
    cases hC : parseUrlField b.url <;>
    cases hD : parseResourceTypeField b.resource_type <;>
    cases hE : parseDifficultyField b.difficulty <;>
    simp_all

/-! ### The claims -/

/-- C10: the `ResourceList` difficulty filter is a pure selection: `All`
displays every resource; a specific difficulty displays exactly the
resources with that difficulty, in their original order; the displayed
list is always a sublist of the underlying one, which is not modified; and
the no-resources message shows exactly when the filtered list is empty. -/
theorem c10_resource_filter_pure_selection (sel : FilterOption) (resources : List Resource) :
    filteredResources .all resources = resources ∧
    (∀ d, filteredResources (.level d) resources =
      resources.filter fun r => r.difficulty == d) ∧
    (∀ d r, r ∈ filteredResources (.level d) resources ↔
      r ∈ resources ∧ r.difficulty = d) ∧
    (filteredResources sel resources).Sublist resources ∧
    (showsNoResourcesMessage sel resources = true ↔
      filteredResources sel resources = []) := by
  refine ⟨rfl, fun d => rfl, fun d r => ?_, ?_, ?_⟩
  · simp [filteredResources, List.mem_filter]
  · cases sel with
    | all => exact List.Sublist.refl _
    | level d => exact List.filter_sublist _
  · simp [showsNoResourcesMessage, List.isEmpty_iff]

/-- C7: `GET /api/roles` returns the whole catalog: status 200, and the
body holds exactly one summary (id, name, short description) per stored
role — none missing, none extra — in ascending id order. -/
theorem c7_getRoles_whole_catalog (db : DB) :
    (getRolesRoute db none).status = 200 ∧
    (getRolesRoute db none).body = .roles (getAllRoles db) ∧
    (getAllRoles db).Perm (db.roles.map fun r => ⟨r.id, r.name, r.short_description⟩) ∧
    (getAllRoles db).Pairwise (fun a b => a.id ≤ b.id) := by
  refine ⟨rfl, rfl, ?_, ?_⟩
  · exact (List.perm_insertionSort roleIdLE db.roles).map _
  · have h := List.sorted_insertionSort roleIdLE db.roles
    unfold getAllRoles
    exact List.pairwise_map.mpr h

/-- C8: resource creation is atomic on error: whenever `POST
/api/resources` answers 400 or 404, the database is exactly as before the
request; any status other than 201 leaves the resources table unchanged. -/
theorem c8_postResource_atomic_on_error (b : ResourceBody) (db : DB) :
    ((postResourceRoute b db).1.status = 400 ∨ (postResourceRoute b db).1.status = 404 →
      (postResourceRoute b db).2 = db) ∧
    ((postResourceRoute b db).1.status ≠ 201 →
      (postResourceRoute b db).2.resources = db.resources ∧
      (postResourceRoute b db).2 = db) := by
  unfold postResourceRoute
  cases hp : parseCreateResource b with
  | none => simp [hp]
  | some d =>
      by_cases hr : roleExists db d.role_id
      · simp [hp, hr]
      · simp [hp, hr]

/-- Witness for C8: a body with an invalid `resource_type` gets status 400
and the freshly migrated database is returned unchanged. -/
theorem c8_witness : (postResourceRoute badEnumResourceBody initDB).2 = initDB :=
  (c8_postResource_atomic_on_error badEnumResourceBody initDB).1 (Or.inl (by decide))

/-- C4: a Role cannot be deleted while Resources reference it: the API has
no deletion operation (every step only appends to the roles table), and a
SQL delete against the `ON DELETE RESTRICT` foreign key fails — changing
neither table — whenever a resource still references the role. -/
theorem c4_delete_restrict (db : DB) (id : Nat) :
    (∀ a, ∃ t, (stepDB db a).roles = db.roles ++ t) ∧
    ((∃ x ∈ db.resources, x.role_id = id) → dbDeleteRole db id = none) := by
  refine ⟨fun a => step_roles_append db a, ?_⟩
  rintro ⟨x, hx, he⟩
  unfold dbDeleteRole
  have : db.resources.any (fun r => r.role_id == id) = true :=
    List.any_eq_true.mpr ⟨x, hx, by simp [he]⟩
  simp [this]

/-- Witness for C4: deleting role 1 from the sample database, where
resource 1 references it, fails. -/
theorem c4_witness : dbDeleteRole sampleDB 1 = none :=
  (c4_delete_restrict sampleDB 1).2 ⟨sampleResource, by decide, by decide⟩

/-- C2: the enumerations are fixed 3-value sets: `ResourceTypeSchema`
accepts exactly Video, Article, Course and `DifficultyLevelSchema` exactly
Beginner, Intermediate, Advanced; any body whose `resource_type` or
`difficulty` field is any other value gets 400 Bad Request and no resource
is created. -/
theorem c2_enum_validation (b : ResourceBody) (db : DB) :
    (∀ s, (parseResourceType s).isSome ↔
      s = "Video" ∨ s = "Article" ∨ s = "Course") ∧
    (∀ s, (parseDifficulty s).isSome ↔
      s = "Beginner" ∨ s = "Intermediate" ∨ s = "Advanced") ∧
    (parseResourceTypeField b.resource_type = none ∨
        parseDifficultyField b.difficulty = none →
      postResourceRoute b db =
        (⟨400, .err "Validation failed" "body rejected by CreateResourceSchema"⟩, db)) := by
  refine ⟨fun s => ?_, fun s => ?_, fun h => ?_⟩
  · unfold parseResourceType
    split_ifs with h1 h2 h3 <;> simp_all
  · unfold parseDifficulty
    split_ifs with h1 h2 h3 <;> simp_all
  · unfold postResourceRoute
    rw [parseCreateResource_eq_none_of_bad_enum b h]

/-- Witness for C2: a body whose `resource_type` is "Podcast" gets 400 and
the freshly migrated database is unchanged. -/
theorem c2_witness :
    postResourceRoute badEnumResourceBody initDB =
      (⟨400, .err "Validation failed" "body rejected by CreateResourceSchema"⟩, initDB) :=
  (c2_enum_validation badEnumResourceBody initDB).2.2 (Or.inl (by decide))

/-- C1: every Resource references an existing Role: in every database
state reachable through the API each resource's `role_id` is the id of
some stored role, and `POST /api/resources` answers 404 and inserts
nothing whenever the role-existence check fails. -/
theorem c1_resources_reference_existing_roles :
    (∀ acts : List Action, ∀ x ∈ (runAPI acts).resources,
      ∃ r ∈ (runAPI acts).roles, r.id = x.role_id) ∧
    (∀ (b : ResourceBody) (db : DB) (d : CreateResourceRequest),
      parseCreateResource b = some d → roleExists db d.role_id = false →
      postResourceRoute b db =
        (⟨404, .err "Role not found" "No role found with that ID"⟩, db)) := by
  constructor
  · intro acts
    exact foldl_preserves_refint acts initDB (by intro x hx; simp [initDB] at hx)
  · intro b db d hp hr
    unfold postResourceRoute
    simp [hp, hr]

/-- Witness for C1: posting a valid resource body for the nonexistent role
5 against the freshly migrated database answers 404 and changes nothing. -/
theorem c1_witness :
    postResourceRoute role5ResourceBody initDB =
      (⟨404, .err "Role not found" "No role found with that ID"⟩, initDB) :=
  c1_resources_reference_existing_roles.2 role5ResourceBody initDB
    ⟨5, "Advanced SQL", "https://example.com/sql", .course, .advanced⟩
    (by decide) (by decide)

/-- C3: lifecycle is create-then-read only: the two GET endpoints leave
the state unchanged, `POST /api/roles` only appends one role row (leaving
resources unchanged), `POST /api/resources` only appends one resource row
(leaving roles unchanged), and hence over any request sequence the
existing rows of both tables persist unchanged, with new rows only
appended after them. -/
theorem c3_create_then_read_only :
    (∀ (db : DB) (s : String), stepDB db (.getRole s) = db) ∧
    (∀ db : DB, stepDB db .getRoles = db) ∧
    (∀ (db : DB) (b : RoleBody),
      (stepDB db (.postRole b)).resources = db.resources ∧
      ((stepDB db (.postRole b)).roles = db.roles ∨
        ∃ r, (stepDB db (.postRole b)).roles = db.roles ++ [r])) ∧
    (∀ (db : DB) (b : ResourceBody),
      (stepDB db (.postResource b)).roles = db.roles ∧
      ((stepDB db (.postResource b)).resources = db.resources ∨
        ∃ x, (stepDB db (.postResource b)).resources = db.resources ++ [x])) ∧
    (∀ (db : DB) (acts : List Action),
      (∃ t, (List.foldl stepDB db acts).roles = db.roles ++ t) ∧
      (∃ t, (List.foldl stepDB db acts).resources = db.resources ++ t)) := by
  refine ⟨fun db s => rfl, fun db => rfl, fun db b => ⟨?_, ?_⟩, fun db b => ⟨?_, ?_⟩,
    fun db acts => foldl_tables_append acts db⟩
  · unfold stepDB postRoleRoute
    cases hp : parseCreateRole b with
    | none => simp [hp]
    | some d => simp [hp, createRole]
  · unfold stepDB postRoleRoute
    cases hp : parseCreateRole b with
    | none => simp [hp]
    | some d => exact Or.inr ⟨(createRole db d).1, by simp [hp, createRole]⟩
  · obtain ⟨t, ht⟩ := step_roles_append db (.postResource b)
    have : t = [] := by
      revert ht
      unfold stepDB postResourceRoute
      cases hp : parseCreateResource b with
      | none => simp [hp]
      | some d =>
          by_cases hr : roleExists db d.role_id <;> simp [hp, hr, createResource]
    simpa [this] using ht
  · unfold stepDB postResourceRoute
    cases hp : parseCreateResource b with
    | none => simp [hp]
    | some d =>
        by_cases hr : roleExists db d.role_id
        · exact Or.inr ⟨(createResource db d).1, by simp [hp, hr, createResource]⟩
        · simp [hp, hr]

/-- C5: `GET /api/roles/:id` follows validate-then-query: a non-digit id
parameter gets 400; an all-digit id with no matching role gets 404; a
matching role gets 200 with the role and its resources; a database
failure gets 500; every non-200 body is an error object with an `error`
field; and the id parameter is rejected exactly when it is not a nonempty
string of decimal digits. -/
theorem c5_getRole_error_taxonomy (idParam : String) (db : DB) (failure : Option String) :
    (parseRoleIdParam idParam = none →
      getRoleRoute idParam db failure =
        ⟨400, .err "Invalid ID format" "ID must be a valid number"⟩) ∧
    (∀ id, parseRoleIdParam idParam = some id → failure = none →
      getRoleById db id = none →
      getRoleRoute idParam db failure =
        ⟨404, .err "Role not found" "No role found with that ID"⟩) ∧
    (∀ id r, parseRoleIdParam idParam = some id → failure = none →
      getRoleById db id = some r →
      getRoleRoute idParam db failure = ⟨200, .role r⟩) ∧
    (∀ id e, parseRoleIdParam idParam = some id → failure = some e →
      (getRoleRoute idParam db failure).status = 500) ∧
    ((getRoleRoute idParam db failure).status ≠ 200 →
      (getRoleRoute idParam db failure).body.hasErrorField = true) ∧
    (parseRoleIdParam idParam = none ↔
      ¬(idParam ≠ "" ∧ idParam.data.all Char.isDigit)) := by
  refine ⟨?_, ?_, ?_, ?_, ?_, ?_⟩
  · intro h; unfold getRoleRoute; simp [h]
  · intro id hp hf hg; unfold getRoleRoute; simp [hp, hf, hg]
  · intro id r hp hf hg; unfold getRoleRoute; simp [hp, hf, hg]
  · intro id e hp hf; unfold getRoleRoute; simp [hp, hf]
  · unfold getRoleRoute
    cases hp : parseRoleIdParam idParam with
    | none => simp [ResBody.hasErrorField]
    | some id =>
        cases failure with
        | some e => simp [ResBody.hasErrorField]
        | none =>
            cases hg : getRoleById db id with
            | none => simp [hg, ResBody.hasErrorField]
            | some r => simp [hg]
  · unfold parseRoleIdParam
    split_ifs with h
    · exact iff_of_false (by simp) (not_not_intro h)
    · exact iff_of_true rfl h

/-- Witness for C5: the non-numeric id "invalid" gets 400 with an error
body, against the freshly migrated database with no failure injected. -/
theorem c5_witness :
    getRoleRoute "invalid" initDB none =
      ⟨400, .err "Invalid ID format" "ID must be a valid number"⟩ :=
  (c5_getRole_error_taxonomy "invalid" initDB none).1 (by decide)

/-- Looking up a freshly assigned id in the roles table after an append
finds exactly the new row, since no earlier row carries that id. -/
theorem find_append_fresh (roles : List Role) (r : Role) (n : Nat)
    (hr : r.id = n) (h : ∀ x ∈ roles, x.id ≠ n) :
    (roles ++ [r]).find? (fun x => x.id == n) = some r := by
  induction roles with
  | nil => simp [List.find?, hr]
  | cons a as ih =>
      have ha : (a.id == n) = false := by
        simp [h a (by simp)]
      simp only [List.cons_append, List.find?, ha]
      exact ih fun x hx => h x (by simp [hx])

/-- No resource row matches a role id that none of them references. -/
theorem filter_role_id_fresh (res : List Resource) (n : Nat)
    (h : ∀ x ∈ res, x.role_id ≠ n) :
    res.filter (fun x => x.role_id == n) = [] := by
  rw [List.filter_eq_nil_iff]
  intro a ha
  simp [h a ha]

/-- Counterexample for C6: the valid creation input whose
`long_description` is the empty string round-trips to a stored
`long_description` of null (JavaScript `|| null` treats the empty string
as falsy), not to the given empty string. -/
theorem c6_counterexample :
    ((getRoleById (createRole initDB emptyLongDescRequest).2
        (createRole initDB emptyLongDescRequest).1.id).map
      fun w => w.role.long_description) = some none ∧
    emptyLongDescRequest.long_description = some "" := by
  decide

/-- C6 (amended): role creation round-trips through the store: after
`createRole` in a well-formed state, `getRoleById` on the returned id
yields that role with an empty resources list; name and short description
are preserved; `long_description` is the given string when it is nonempty
and null when it was omitted or empty; the responsibilities and skills
lists are preserved element-for-element (empty when omitted). -/
theorem c6_role_roundtrip (db : DB) (d : CreateRoleRequest) (h : WF db) :
    getRoleById (createRole db d).2 (createRole db d).1.id =
      some ⟨(createRole db d).1, []⟩ ∧
    (createRole db d).1.name = d.name ∧
    (createRole db d).1.short_description = d.short_description ∧
    (createRole db d).1.long_description = stringOrNull d.long_description ∧
    (∀ s, d.long_description = some s → s ≠ "" →
      (createRole db d).1.long_description = some s) ∧
    (d.long_description = none ∨ d.long_description = some "" →
      (createRole db d).1.long_description = none) ∧
    (∀ l, d.responsibilities = some l → (createRole db d).1.responsibilities = l) ∧
    (∀ l, d.skills = some l → (createRole db d).1.skills = l) ∧
    (d.responsibilities = none → (createRole db d).1.responsibilities = []) ∧
    (d.skills = none → (createRole db d).1.skills = []) := by
  obtain ⟨h1, h2⟩ := h
  refine ⟨?_, rfl, rfl, rfl, ?_, ?_, ?_, ?_, ?_, ?_⟩
  · have hfresh : ∀ x ∈ db.roles, x.id ≠ db.nextRoleId :=
      fun x hx => Nat.ne_of_lt (h1 x hx)
    have hres : ∀ x ∈ db.resources, x.role_id ≠ db.nextRoleId := by
      intro x hx
      obtain ⟨r, hr, he⟩ := h2 x hx
      exact he ▸ Nat.ne_of_lt (h1 r hr)
    unfold getRoleById
    rw [show (createRole db d).1.id = db.nextRoleId from rfl,
      show (createRole db d).2.roles = db.roles ++ [(createRole db d).1] from rfl,
      show (createRole db d).2.resources = db.resources from rfl,
      find_append_fresh db.roles (createRole db d).1 db.nextRoleId rfl hfresh,
      filter_role_id_fresh db.resources db.nextRoleId hres]
    rfl
  · intro s hs hne
    show stringOrNull d.long_description = some s
    simp [stringOrNull, hs, hne]
  · rintro (hd | hd)
    · show stringOrNull d.long_description = none
      simp [stringOrNull, hd]
    · show stringOrNull d.long_description = none
      simp [stringOrNull, hd]
  · intro l hl
    show d.responsibilities.getD [] = l
    simp [hl]
  · intro l hl
    show d.skills.getD [] = l
    simp [hl]
  · intro hd
    show d.responsibilities.getD [] = []
    simp [hd]
  · intro hd
    show d.skills.getD [] = []
    simp [hd]

/-- Witness for C6 (amended): creating a role from a concrete request in
the freshly migrated database and reading it back by its id yields the
created role with no resources. -/
theorem c6_witness :
    getRoleById (createRole initDB emptyLongDescRequest).2
        (createRole initDB emptyLongDescRequest).1.id =
      some ⟨(createRole initDB emptyLongDescRequest).1, []⟩ :=
  (c6_role_roundtrip initDB emptyLongDescRequest
    (by refine ⟨?_, ?_⟩ <;> intro x hx <;> simp [initDB] at hx)).1

/-- C9: `POST /api/roles` normalizes omitted optional fields: when
`long_description`, `responsibilities`, or `skills` is omitted or `null`
in a valid body, the created role stores `long_description` as null and
the two lists as empty arrays, and the handler answers 201 with the
created role. -/
theorem c9_optional_field_defaults (b : RoleBody) (db : DB) (d : CreateRoleRequest)
    (hparse : parseCreateRole b = some d) :
    ((b.long_description = none ∨ b.long_description = some .null) →
      (createRole db d).1.long_description = none) ∧
    ((b.responsibilities = none ∨ b.responsibilities = some .null) →
      (createRole db d).1.responsibilities = []) ∧
    ((b.skills = none ∨ b.skills = some .null) →
      (createRole db d).1.skills = []) ∧
    postRoleRoute b db =
      (⟨201, .roleCreated (createRole db d).1⟩, (createRole db d).2) := by
  have hroute : postRoleRoute b db =
      (⟨201, .roleCreated (createRole db d).1⟩, (createRole db d).2) := by
    unfold postRoleRoute
    simp [hparse]
  obtain ⟨dn, dsd, dld, dresp, dsk⟩ := d
  unfold parseCreateRole at hparse
  cases hA : parseRoleName b.name with
  | none => simp [hA] at hparse
  | some name =>
  cases hB : parseShortDescription b.short_description with
  | none => simp [hA, hB] at hparse
  | some sd =>
  cases hC : parseOptString b.long_description with
  | none => simp [hA, hB, hC] at hparse
  | some ld =>
  cases hD : parseOptStringList b.responsibilities with
  | none => simp [hA, hB, hC, hD] at hparse
  | some resp =>
  cases hE : parseOptStringList b.skills with
  | none => simp [hA, hB, hC, hD, hE] at hparse
  | some sk =>
  simp only [hA, hB, hC, hD, hE] at hparse
  simp only [Option.bind_eq_bind, Option.some_bind, Option.pure_def,
    Option.some.injEq, CreateRoleRequest.mk.injEq] at hparse
  obtain ⟨e1, e2, e3, e4, e5⟩ := hparse
  subst e1 e2 e3 e4 e5
  refine ⟨?_, ?_, ?_, hroute⟩
  · rintro (hb | hb) <;>
      [rw [hb] at hC; rw [hb] at hC] <;>
      simp only [parseOptString, Option.some.injEq] at hC <;>
      simp [createRole, stringOrNull, ← hC]
  · rintro (hb | hb) <;>
      [rw [hb] at hD; rw [hb] at hD] <;>
      simp only [parseOptStringList, Option.some.injEq] at hD <;>
      simp [createRole, ← hD]
  · rintro (hb | hb) <;>
      [rw [hb] at hE; rw [hb] at hE] <;>
      simp only [parseOptStringList, Option.some.injEq] at hE <;>
      simp [createRole, ← hE]

/-- Witness for C9: the body with all three optional fields set to `null`
creates a role with null long description and empty lists. -/
theorem c9_witness :
    (createRole initDB qaRequest).1.long_description = none ∧
    (createRole initDB qaRequest).1.responsibilities = [] ∧
    (createRole initDB qaRequest).1.skills = [] :=
  ⟨(c9_optional_field_defaults nullFieldsRoleBody initDB qaRequest (by decide)).1
      (Or.inr rfl),
   (c9_optional_field_defaults nullFieldsRoleBody initDB qaRequest (by decide)).2.1
      (Or.inr rfl),
   (c9_optional_field_defaults nullFieldsRoleBody initDB qaRequest (by decide)).2.2.1
      (Or.inr rfl)⟩

end CareerPath
